import Mathlib

/-!
Shallow embedding of the MCP tool-test harness
(`generate_and_test_mcp_calls.py`): JSON values, the response-status
classifier, the event-stream decoder, the invocation client, the catalog
loader, the streaming orchestrator, the CLI printing step and the
parameter cache, together with theorems settling the specification
claims about them.

Python's dynamically typed values decoded from JSON are modelled by the
inductive type `JVal`; operations that can raise a Python exception are
modelled in `Except Unit`; a caught exception (a `try`/`except` block)
is an explicit `match` on the `Except` result.
-/

/-- JSON values as decoded by Python's `json.loads`: `null`, booleans,
numbers, strings, arrays and objects (insertion-ordered key/value lists;
Python's parser keeps at most one binding per key). Numbers are modelled
as integers, which suffices for every claim. -/
inductive JVal where
  | null : JVal
  | bool : Bool → JVal
  | num : Int → JVal
  | str : String → JVal
  | arr : List JVal → JVal
  | obj : List (String × JVal) → JVal

/-- String literals used by the source, named so they can be passed
around as ordinary terms. -/
def kResult : String := "result"

def kIsError : String := "isError"

def kContent : String := "content"

def kText : String := "text"

def kError : String := "error"

def kRaw : String := "raw"

def kName : String := "name"

def kDescription : String := "description"

def kType : String := "type"

def kParameters : String := "parameters"

def kInput : String := "input"

def kOutput : String := "output"

def kStatus : String := "status"

def kToolType : String := "toolType"

def kCategory : String := "category"

def kInputSchema : String := "inputSchema"

def kProperties : String := "properties"

def kExampleInput : String := "exampleInput"

def kProps : String := "_properties"

def kExample : String := "_example"

def sSuccess : String := "success"

def sError : String := "error"

def sUnknown : String := "unknown"

def sApi : String := "api"

def emptyStr : String := ""

/-- The override marker scanned for by `classify_response_status`. -/
def overrideNeedle : String :=
  "Tools should wrap non-dict values based on their output_schema"

def msgInvalidProps : String := "Invalid parameter properties in JSON"

def msgFailedSample : String := "Failed to generate sample input"

def catLangchain : String := "langchaintool"

def catPubchem : String := "pubchem"

def eventStreamCT : String := "text/event-stream"

def dataColon : String := "data:"

/-- Further concrete strings used in theorem statements. -/
def nameSlash : String := "a/b"

def nameSpace : String := "a b"

def ctJson : String := "application/json"

def bufAB : String := "\"ab\""

def bufAdataB : String := "\"adata:b\""

/-- Python truthiness (`bool(x)`) on JSON-decoded values: `None`,
`False`, `0`, `""`, `[]` and `{}` are falsy, everything else truthy. -/
def pyTruthy : JVal → Bool
  | JVal.null => false
  | JVal.bool b => b
  | JVal.num n => n != 0
  | JVal.str s => s.length != 0
  | JVal.arr xs => xs.length != 0
  | JVal.obj kvs => kvs.length != 0

/-- Python's `x or d` on JSON-decoded values. -/
def pyOr (v d : JVal) : JVal := if pyTruthy v then v else d

/-- `v.get(k, d)`: succeeds with the binding of `k` (or the default) when
`v` is a dict; raises `AttributeError` (modelled `Except.error`) on any
other value, which has no `.get` method. -/
def pyGetD (v : JVal) (k : String) (d : JVal) : Except Unit JVal :=
  match v with
  | JVal.obj kvs => Except.ok ((List.lookup k kvs).getD d)
  | _ => Except.error ()

/-- `v[k]`: dictionary subscription; `KeyError` when the key is absent,
`TypeError` when `v` is not string-subscriptable. -/
def pySub (v : JVal) (k : String) : Except Unit JVal :=
  match v with
  | JVal.obj kvs =>
    match List.lookup k kvs with
    | some x => Except.ok x
    | none => Except.error ()
  | _ => Except.error ()

/-- Total getter used only in theorem statements: the binding of `k`
when `v` is an object containing it, the default otherwise. -/
def jGetD (v : JVal) (k : String) (d : JVal) : JVal :=
  match v with
  | JVal.obj kvs => (List.lookup k kvs).getD d
  | _ => d

/-- `isinstance(v, dict)`. -/
def isObjJ : JVal → Bool
  | JVal.obj _ => true
  | _ => false

/-- `isinstance(v, str)`. -/
def isStrJ : JVal → Bool
  | JVal.str _ => true
  | _ => false

/-- Python's `v is True`. -/
def isBoolTrue : JVal → Bool
  | JVal.bool b => b
  | _ => false

/-- Python's `v is False`. -/
def isBoolFalse : JVal → Bool
  | JVal.bool b => !b
  | _ => false

/-- Python's `v == s` for a string literal `s`: true only for the equal
string (no cross-type equality between a string and other JSON values). -/
def jEqStr (v : JVal) (s : String) : Bool :=
  match v with
  | JVal.str t => t == s
  | _ => false

/-- Does the character list start with the given pattern? -/
def charsStartWith : List Char → List Char → Bool
  | _, [] => true
  | [], _ :: _ => false
  | c :: cs, p :: ps => c == p && charsStartWith cs ps

/-- Does the character list contain the pattern as a contiguous
sublist? -/
def charsHave : List Char → List Char → Bool
  | [], pat => pat.isEmpty
  | c :: cs, pat => charsStartWith (c :: cs) pat || charsHave cs pat

/-- Python's `sub in hay` for strings: contiguous-substring test. -/
def strContains (hay sub : String) : Bool := charsHave hay.data sub.data

/-- Python's `hay.startswith(sub)`. -/
def pyStartsWith (hay sub : String) : Bool := charsStartWith hay.data sub.data

/-- Replace every non-overlapping occurrence of `pat` (left to right) by
`rep`, as Python's `str.replace` does for a non-empty pattern. The fuel
argument makes the recursion structural; every step consumes at least
one character, so fuel equal to the list's length never runs out. -/
def replaceChars (pat rep : List Char) : Nat → List Char → List Char
  | 0, l => l
  | _ + 1, [] => []
  | n + 1, c :: cs =>
    if 0 < pat.length && charsStartWith (c :: cs) pat then
      rep ++ replaceChars pat rep n (List.drop (pat.length - 1) cs)
    else
      c :: replaceChars pat rep n cs

/-- Python's `s.replace(pat, rep)` (non-empty pattern). -/
def pyReplace (s pat rep : String) : String :=
  String.mk (replaceChars pat.data rep.data s.data.length s.data)

/-- Python's `s.strip()`: remove leading and trailing whitespace. -/
def pyStrip (s : String) : String :=
  String.mk (((s.data.dropWhile Char.isWhitespace).reverse.dropWhile
    Char.isWhitespace).reverse)

/-- Python's `s.lower()` (ASCII case folding, which covers every string
the source compares case-insensitively). -/
def pyLower (s : String) : String := String.mk (s.data.map Char.toLower)

/-- Python's `"".join`-style plain concatenation of a list of strings. -/
def joinStrs : List String → String
  | [] => emptyStr
  | s :: rest => s ++ joinStrs rest

/-- Python's `sub in v` for an arbitrary JSON value `v` on the left of
the membership test: substring test on strings, element membership on
lists (only an equal string element matches), key membership on dicts,
and a raised `TypeError` on numbers, booleans and `None`. -/
def pyContains (sub : String) (v : JVal) : Except Unit Bool :=
  match v with
  | JVal.str s => Except.ok (strContains s sub)
  | JVal.arr xs => Except.ok (xs.any (fun x => jEqStr x sub))
  | JVal.obj kvs => Except.ok (kvs.any (fun kv => kv.fst == sub))
  | _ => Except.error ()

/-- Python's short-circuiting `any` over a generator whose element test
may raise: stops at the first `true`, propagates the first raised
exception, and is `false` when the list is exhausted. -/
def anyExcept (f : JVal → Except Unit Bool) : List JVal → Except Unit Bool
  | [] => Except.ok false
  | x :: xs =>
    match f x with
    | Except.error e => Except.error e
    | Except.ok true => Except.ok true
    | Except.ok false => anyExcept f xs

/-- The input of `classify_response_status`: `Union[str, dict]` — a raw
string still to be JSON-parsed, or an already decoded value. -/
inductive RawResponse where
  | str : String → RawResponse
  | json : JVal → RawResponse

/-- The string-parsing step at the top of `classify_response_status`:
`json.loads` on a raw string (the abstract parser `p` returns `none`
when parsing raises), identity on an already decoded value. -/
def toParsed (p : String → Option JVal) : RawResponse → Except Unit JVal
  | RawResponse.str s =>
    match p s with
    | some j => Except.ok j
    | none => Except.error ()
  | RawResponse.json j => Except.ok j

/-- One step of the override scan inside `classify_response_status`:
`isinstance(item, dict) and "text" in item and overrideNeedle in
item["text"]` — short-circuiting, raising only from the final
containment test. -/
def overrideItem (item : JVal) : Except Unit Bool :=
  match item with
  | JVal.obj kvs =>
    match List.lookup kText kvs with
    | some v => pyContains overrideNeedle v
    | none => Except.ok false
  | _ => Except.ok false

/-- The body of `classify_response_status` after parsing, i.e. the code
inside the `try` block from `parsed.get("result", {})` on: reads
`result`, `isError` and `content` (each read can raise on a non-dict),
then branches on `isError is True` / `is False`. -/
def classifyCore (parsed : JVal) : Except Unit String :=
  match pyGetD parsed kResult (JVal.obj []) with
  | Except.error e => Except.error e
  | Except.ok result =>
    match pyGetD result kIsError JVal.null with
    | Except.error e => Except.error e
    | Except.ok isErr =>
      match pyGetD result kContent (JVal.str emptyStr) with
      | Except.error e => Except.error e
      | Except.ok content =>
        if isBoolTrue isErr then
          match content with
          | JVal.arr items =>
            match anyExcept overrideItem items with
            | Except.ok true => Except.ok sSuccess
            | Except.ok false => Except.ok sError
            | Except.error e => Except.error e
          | _ => Except.ok sError
        else if isBoolFalse isErr then Except.ok sSuccess
        else Except.ok sUnknown

/-- `classify_response_status`: the whole body runs inside
`try ... except Exception: return "unknown"`. -/
def classify_response_status (p : String → Option JVal)
    (raw : RawResponse) : String :=
  match toParsed p raw with
  | Except.error _ => sUnknown
  | Except.ok parsed =>
    match classifyCore parsed with
    | Except.ok s => s
    | Except.error _ => sUnknown

/-- One iteration of the SSE loop in `call_mcp`: if the stripped line
starts with `data:`, append `line.strip().replace("data:", "").strip()`
to the accumulator, else leave the accumulator unchanged. -/
def streamLineAccum (acc line : String) : String :=
  if pyStartsWith (pyStrip line) dataColon then
    acc ++ pyStrip (pyReplace (pyStrip line) dataColon emptyStr)
  else acc

/-- The accumulated `full_data` buffer of `call_mcp`'s SSE branch. -/
def streamBuffer (lines : List String) : String :=
  List.foldl streamLineAccum emptyStr lines

/-- The SSE branch of `call_mcp`: accumulate the buffer, parse it as
JSON, and on a parse failure return the transport-failure record
carrying the parse error message and the raw accumulated text. -/
def decodeStream (p : String → Option JVal) (emsg : String)
    (lines : List String) : JVal :=
  match p (streamBuffer lines) with
  | some j => j
  | none =>
    JVal.obj [(kError, JVal.str emsg), (kRaw, JVal.str (streamBuffer lines))]

/-- The observable outcome of the HTTP POST inside `call_mcp`: either
the transport layer raised (connection refusal, timeout, DNS failure,
a failure while draining the stream, ...) with message `msg`, or a
response arrived with a `Content-Type` header, a line sequence (as
`iter_lines` yields it) and a body text. -/
inductive HttpResult where
  | fault : String → HttpResult
  | ok : String → List String → String → HttpResult

/-- `call_mcp` after the request has been built and sent: branches on
the outcome of the POST. A transport fault is caught by the outer
`except` and becomes `{"error": str(e)}`; an SSE response goes through
`decodeStream`; any other response is parsed as one JSON document, a
parse failure becoming `{"error": ..., "raw": response.text}`.
The parser `p` and the exception-message strings are parameters. -/
def call_mcp (p : String → Option JVal) (emsgStream emsgJson : String)
    (r : HttpResult) : JVal :=
  match r with
  | HttpResult.fault msg => JVal.obj [(kError, JVal.str msg)]
  | HttpResult.ok contentType lines body =>
    if strContains contentType eventStreamCT then
      decodeStream p emsgStream lines
    else
      match p body with
      | some j => j
      | none => JVal.obj [(kError, JVal.str emsgJson), (kRaw, JVal.str body)]

/-- Cache path fragments used by `get_param_cache_path`. -/
def cacheDirStr : String := "param_cache/"

def slashStr : String := "/"

def spaceStr : String := " "

def underscoreStr : String := "_"

def paramsSuffix : String := "_params.json"

/-- `get_param_cache_path`: sanitize the tool name by replacing `/` and
space with `_` and build `param_cache/<safe_name>_params.json`. -/
def get_param_cache_path (tool_name : String) : String :=
  cacheDirStr ++
    pyReplace (pyReplace tool_name slashStr underscoreStr) spaceStr
      underscoreStr ++ paramsSuffix

/-- The on-disk parameter cache, abstracted as the JSON value stored at
each path (`none` when no such file exists); `json.dump` followed by
`json.load` is the identity on JSON-serializable values. -/
def Cache : Type := String → Option JVal

/-- A cache directory with no files. -/
def cacheEmpty : Cache := fun _ => none

/-- `load_cached_params`: read and parse the file at the tool's cache
path when it exists, `None` otherwise. -/
def load_cached_params (c : Cache) (tool_name : String) : Option JVal :=
  c (get_param_cache_path tool_name)

/-- `save_cached_params`: write the JSON value to the tool's cache
path. -/
def save_cached_params (c : Cache) (tool_name : String) (d : JVal) : Cache :=
  fun p => if p = get_param_cache_path tool_name then some d else c p

/-- `_is_excluded_category`: falsy categories are not excluded; a string
category is excluded when its stripped lowercase form is in the set; a
list category when some string element is; any other type is not. -/
def _is_excluded_category (cat : JVal) : Bool :=
  if !pyTruthy cat then false
  else
    match cat with
    | JVal.str s =>
      pyLower (pyStrip s) == catLangchain || pyLower (pyStrip s) == catPubchem
    | JVal.arr xs =>
      xs.any (fun x =>
        match x with
        | JVal.str s =>
          pyLower (pyStrip s) == catLangchain ||
            pyLower (pyStrip s) == catPubchem
        | _ => false)
    | _ => false

/-- The loader's `(t.get("toolType") or "").strip().lower()`: raises when
`t` is not a dict (no `.get`) or when the truthy field value is not a
string (no `.strip`). -/
def toolTypeStr (t : JVal) : Except Unit String :=
  match pyGetD t kToolType JVal.null with
  | Except.error e => Except.error e
  | Except.ok v =>
    match pyOr v (JVal.str emptyStr) with
    | JVal.str s => Except.ok (pyLower (pyStrip s))
    | _ => Except.error ()

/-- Python dict assignment `d[k] = v`: replace the existing binding in
place or append a new one at the end. -/
def setKV : List (String × JVal) → String → JVal → List (String × JVal)
  | [], k, v => [(k, v)]
  | (k0, v0) :: rest, k, v =>
    if k0 == k then (k, v) :: rest else (k0, v0) :: setKV rest k v

/-- Dict assignment lifted to `JVal` (only ever applied to objects). -/
def setKey : JVal → String → JVal → JVal
  | JVal.obj kvs, k, v => JVal.obj (setKV kvs k v)
  | t, _, _ => t

/-- The loader's normalization of a retained entry:
`t["_properties"] = (t.get("inputSchema") or {}).get("properties", {})`
(which raises when a truthy `inputSchema` is not a dict) and
`t["_example"] = t.get("exampleInput") or {}`. -/
def normalizeTool (t : JVal) : Except Unit JVal :=
  match pyGetD t kInputSchema JVal.null with
  | Except.error e => Except.error e
  | Except.ok schemaRaw =>
    match pyGetD (pyOr schemaRaw (JVal.obj [])) kProperties (JVal.obj []) with
    | Except.error e => Except.error e
    | Except.ok props =>
      match pyGetD t kExampleInput JVal.null with
      | Except.error e => Except.error e
      | Except.ok exRaw =>
        Except.ok
          (setKey (setKey t kProps props) kExample (pyOr exRaw (JVal.obj [])))

/-- `load_tools_from_json` on the decoded catalog array: keep the
entries whose normalized tool type is `api` and whose category is not
excluded, normalizing each kept entry; a raised exception anywhere
aborts the whole loader. -/
def load_tools_from_json : List JVal → Except Unit (List JVal)
  | [] => Except.ok []
  | t :: ts =>
    match toolTypeStr t with
    | Except.error e => Except.error e
    | Except.ok tt =>
      if tt = sApi then
        match pyGetD t kCategory JVal.null with
        | Except.error e => Except.error e
        | Except.ok cat =>
          if _is_excluded_category cat then load_tools_from_json ts
          else
            match normalizeTool t with
            | Except.error e => Except.error e
            | Except.ok t2 =>
              match load_tools_from_json ts with
              | Except.error e => Except.error e
              | Except.ok rest => Except.ok (t2 :: rest)
      else load_tools_from_json ts

/-- The external collaborators of one test run: the JSON parser, the
two decode-failure messages of `call_mcp`, the generative model behind
`generate_sample_arguments` (`none` models any exception inside its
`try` block), and the transport outcome of each HTTP POST. -/
structure Env where
  parse : String → Option JVal
  emsgStream : String
  emsgJson : String
  gpt : String → JVal → Option JVal
  http : JVal → JVal → HttpResult

/-- `generate_sample_arguments`: raises when the tool name is not a
string (`tool_name.replace` inside `get_param_cache_path` has no
non-string overload); returns a truthy cached value unchanged; otherwise
asks the model, saving and returning the parsed output on success and
returning `{}` (with the cache unchanged) when anything in the `try`
block raises. -/
def generate_sample_arguments (e : Env) (c : Cache) (name props : JVal) :
    Except Unit (JVal × Cache) :=
  match name with
  | JVal.str s =>
    if pyTruthy ((load_cached_params c s).getD JVal.null) then
      Except.ok ((load_cached_params c s).getD JVal.null, c)
    else
      match e.gpt s props with
      | some parsed => Except.ok (parsed, save_cached_params c s parsed)
      | none => Except.ok (JVal.obj [], c)
  | _ => Except.error ()

/-- The full per-tool result record yielded by the orchestrator. -/
def fullRecord (name description tool_type properties input output : JVal)
    (status : String) : JVal :=
  JVal.obj [(kName, name), (kDescription, description), (kType, tool_type),
    (kParameters, properties), (kInput, input), (kOutput, output),
    (kStatus, JVal.str status)]

/-- `isinstance(v, dict) and len(v) > 0`. -/
def nonEmptyObj : JVal → Bool
  | JVal.obj kvs => kvs.length != 0
  | _ => false

/-- Invoke `call_mcp` and `classify_response_status` on an argument set
and assemble the yielded record, as the tail of the loop body of
`run_all_tool_tests_streaming` does. -/
def mkFull (e : Env) (name description tool_type properties args : JVal) :
    JVal :=
  fullRecord name description tool_type properties args
    (call_mcp e.parse e.emsgStream e.emsgJson (e.http name args))
    (classify_response_status e.parse
      (RawResponse.json (call_mcp e.parse e.emsgStream e.emsgJson
        (e.http name args))))

/-- The loop body of `run_all_tool_tests_streaming` once the entry's
five fields have been read: yield the invalid-properties record when
`_properties` is not a dict; take a non-empty dict `_example` as the
argument set, otherwise synthesize one (yielding the failed-sample
record when the synthesized set is falsy); then invoke, classify and
yield the full record. Returns the yielded record and the cache as the
synthesis step left it. -/
def runStepBody (e : Env) (c : Cache)
    (name description tool_type properties exampleV : JVal) :
    Except Unit (JVal × Cache) :=
  if !isObjJ properties then
    Except.ok
      (JVal.obj [(kName, name), (kError, JVal.str msgInvalidProps)], c)
  else if nonEmptyObj exampleV then
    Except.ok (mkFull e name description tool_type properties exampleV, c)
  else
    match generate_sample_arguments e c name properties with
    | Except.error err => Except.error err
    | Except.ok (args, c2) =>
      if !pyTruthy args then
        Except.ok
          (JVal.obj [(kName, name), (kError, JVal.str msgFailedSample)], c2)
      else
        Except.ok (mkFull e name description tool_type properties args, c2)

/-- One iteration of the loop in `run_all_tool_tests_streaming`: read
the entry's fields with `.get` (raising when the entry is not a dict)
and run the loop body. -/
def runStep (e : Env) (c : Cache) (tool : JVal) :
    Except Unit (JVal × Cache) :=
  match tool with
  | JVal.obj kvs =>
    runStepBody e c
      ((List.lookup kName kvs).getD JVal.null)
      ((List.lookup kDescription kvs).getD (JVal.str emptyStr))
      ((List.lookup kToolType kvs).getD (JVal.str emptyStr))
      ((List.lookup kProps kvs).getD (JVal.obj []))
      ((List.lookup kExample kvs).getD (JVal.obj []))
  | _ => Except.error ()

/-- `run_all_tool_tests_streaming` over an already filtered catalog, as
its consumer observes it: the list of records the generator yields, and
whether the generator then raised (aborting the iteration) instead of
finishing. A raised exception ends the run immediately, so no further
records follow it. -/
def runAllP (e : Env) (c : Cache) : List JVal → List JVal × Bool
  | [] => ([], false)
  | t :: ts =>
    match runStep e c t with
    | Except.error _ => ([], true)
    | Except.ok (r, c2) =>
      match runAllP e c2 ts with
      | (rs, aborted) => (r :: rs, aborted)

/-- The per-record body of `main`'s loop: `result['status']`
(`KeyError` when absent) then `.upper()` (`AttributeError` on a
non-string), `result['name']`, then on a non-`error` status
`result.get("output")[:200] + "..."`, which raises a `TypeError`
unless the output is a string (a list slices but cannot be
concatenated with a string). A successful print is `ok`. -/
def mainStep (r : JVal) : Except Unit Unit :=
  match r with
  | JVal.obj kvs =>
    match List.lookup kStatus kvs with
    | none => Except.error ()
    | some st =>
      match st with
      | JVal.str s =>
        match List.lookup kName kvs with
        | none => Except.error ()
        | some _ =>
          if s == sError then Except.ok ()
          else
            match (List.lookup kOutput kvs).getD JVal.null with
            | JVal.str _ => Except.ok ()
            | _ => Except.error ()
      | _ => Except.error ()
  | _ => Except.error ()

/-- `main`'s loop over a result sequence: the first raising print
aborts the process (a nonzero exit); printing every record without a
fault exits 0. -/
def mainRun : List JVal → Except Unit Unit
  | [] => Except.ok ()
  | r :: rs =>
    match mainStep r with
    | Except.error e => Except.error e
    | Except.ok _ => mainRun rs

/-- A JSON parser that fails on every input, used to instantiate the
abstract parser at concrete counterexamples. -/
def pNone : String → Option JVal := fun _ => none

/-- A concrete environment whose parser, model and transport all fail,
used at concrete counterexamples. -/
def envNone : Env :=
  { parse := pNone, emsgStream := emptyStr, emsgJson := emptyStr,
    gpt := fun _ _ => none, http := fun _ _ => HttpResult.fault emptyStr }

/-- Claim C2's matching test, following the claim's words: an element
matches when it is a mapping with a `text` field whose value contains
the marker substring (a value that is not a string does not contain a
substring). -/
def claimElemMatch (v : JVal) : Bool :=
  match v with
  | JVal.obj kvs =>
    match List.lookup kText kvs with
    | some (JVal.str t) => strContains t overrideNeedle
    | _ => false
  | _ => false

/-- Claim C3's per-line transform, following the claim's words: for a
line that after trimming begins with `data:`, strip only that leading
prefix and the surrounding whitespace; other lines are ignored. -/
def claimLineRemainder (line : String) : Option String :=
  if pyStartsWith (pyStrip line) dataColon then
    some (pyStrip ((pyStrip line).drop dataColon.length))
  else none

/-- Claim C3's accumulation buffer: the verbatim concatenation of the
per-line remainders. -/
def claimStreamBuffer (lines : List String) : String :=
  joinStrs (lines.filterMap claimLineRemainder)

/-- The amended claim C3's per-line transform: remove every occurrence
of the substring `data:` from the trimmed line (not only the leading
prefix) and trim the remainder. -/
def amendedLineRemainder (line : String) : Option String :=
  if pyStartsWith (pyStrip line) dataColon then
    some (pyStrip (pyReplace (pyStrip line) dataColon emptyStr))
  else none

/-- The amended claim C3's decoder, following its words: concatenate
the per-line remainders of the matching lines into one buffer, parse it
as JSON, and on failure return the transport-failure record whose `raw`
field is that buffer. -/
def claimDecodeAmended (p : String → Option JVal) (emsg : String)
    (lines : List String) : JVal :=
  match p (joinStrs (lines.filterMap amendedLineRemainder)) with
  | some j => j
  | none =>
    JVal.obj [(kError, JVal.str emsg),
      (kRaw, JVal.str (joinStrs (lines.filterMap amendedLineRemainder)))]

/-- Claim C6's retention test, following the claim's words: an entry is
retained when its tool type normalizes to `api` and its category is not
excluded (reading the fields as the loader does). -/
def keepTool (t : JVal) : Bool :=
  match toolTypeStr t with
  | Except.ok tt =>
    if tt = sApi then
      match pyGetD t kCategory JVal.null with
      | Except.ok cat => !_is_excluded_category cat
      | Except.error _ => false
    else false
  | Except.error _ => false

/-- The amended claim C5's side condition on a filtered-catalog entry:
the entry is a mapping and, whenever the loop would reach the
argument-synthesis step (well-formed `_properties`, empty or non-dict
`_example`), its `name` field is a string — the condition under which
the per-tool loop body cannot raise. -/
def stepSafe (t : JVal) : Bool :=
  match t with
  | JVal.obj kvs =>
    !isObjJ ((List.lookup kProps kvs).getD (JVal.obj [])) ||
      nonEmptyObj ((List.lookup kExample kvs).getD (JVal.obj [])) ||
        isStrJ ((List.lookup kName kvs).getD JVal.null)
  | _ => false

/-- Claim C9: saving an argument set for a tool and loading it back for
the same tool returns the same mapping, and loading from an empty cache
(a tool never saved) returns the not-found value, not a fault. -/
theorem claim_C9 (c : Cache) (x : String) (m : JVal) :
    load_cached_params (save_cached_params c x m) x = some m ∧
      load_cached_params cacheEmpty x = none := by
  constructor
  · simp [load_cached_params, save_cached_params]
  · rfl

/-- Claim C10: the cache-path sanitization is not injective — the
distinct tool names `a/b` and `a b` map to the same cache path, so an
argument set saved under the first name is returned by a load under the
second. -/
theorem claim_C10 :
    nameSlash ≠ nameSpace ∧
      get_param_cache_path nameSlash = get_param_cache_path nameSpace ∧
        ∀ (c : Cache) (m : JVal),
          load_cached_params (save_cached_params c nameSlash m) nameSpace =
            some m := by
  refine ⟨by decide, by decide, fun c m => ?_⟩
  have h : get_param_cache_path nameSpace = get_param_cache_path nameSlash := by
    decide
  simp [load_cached_params, save_cached_params, h]

/-- Claim C4: every transport-level fault is caught and converted into
the transport-failure record `{error: message}` in the same result slot
as successful decodes, and a malformed plain-JSON body likewise becomes
a structured `{error, raw}` record rather than an escaping fault. -/
theorem claim_C4 (p : String → Option JVal) (es ej msg : String) :
    call_mcp p es ej (HttpResult.fault msg) =
        JVal.obj [(kError, JVal.str msg)] ∧
      ∀ (lines : List String) (body : String),
        call_mcp pNone es ej (HttpResult.ok ctJson lines body) =
          JVal.obj [(kError, JVal.str ej), (kRaw, JVal.str body)] := by
  constructor
  · rfl
  · intro lines body
    have hct : strContains ctJson eventStreamCT = false := by decide
    simp [call_mcp, hct, pNone]

/-- Fact used by claim C1: the classifier body, when it returns without
raising, returns one of the three statuses. -/
theorem classifyCore_mem (parsed : JVal) (s : String)
    (h : classifyCore parsed = Except.ok s) :
    s = sSuccess ∨ s = sError ∨ s = sUnknown := by
  unfold classifyCore at h
  repeat' split at h
  all_goals simp_all


/-- Claim C1: `classify_response_status` is total — every outcome is one
of the three statuses — and outside the `isError is True` branch it
returns `success` exactly when `result.isError` is exactly `false`,
and `unknown` when a raw string fails to parse, when `result` or
`isError` is absent or of unexpected type (in particular for a
transport-failure record `{error: message}`), or when any fault occurs
during inspection. -/
theorem claim_C1 (p : String → Option JVal) (r : RawResponse) :
    (classify_response_status p r = sSuccess ∨
        classify_response_status p r = sError ∨
          classify_response_status p r = sUnknown) ∧
      (∀ s, r = RawResponse.str s → p s = none →
        classify_response_status p r = sUnknown) ∧
      (∀ m, classify_response_status p
          (RawResponse.json (JVal.obj [(kError, JVal.str m)])) = sUnknown) ∧
      ∀ j, toParsed p r = Except.ok j →
        (isObjJ j = false → classify_response_status p r = sUnknown) ∧
        ∀ kvs, j = JVal.obj kvs →
          (isObjJ ((List.lookup kResult kvs).getD (JVal.obj [])) = false →
            classify_response_status p r = sUnknown) ∧
          ∀ rkvs,
            (List.lookup kResult kvs).getD (JVal.obj []) = JVal.obj rkvs →
            isBoolTrue ((List.lookup kIsError rkvs).getD JVal.null) = false →
            classify_response_status p r =
              if isBoolFalse ((List.lookup kIsError rkvs).getD JVal.null)
              then sSuccess else sUnknown := by
  refine ⟨?_, ?_, ?_, ?_⟩
  · unfold classify_response_status
    cases htp : toParsed p r with
    | error e => right; right; rfl
    | ok parsed =>
      cases hcc : classifyCore parsed with
      | error e => right; right; simp [hcc]
      | ok s => simpa [hcc] using classifyCore_mem parsed s hcc
  · intro s hr hp
    subst hr
    simp [classify_response_status, toParsed, hp]
  · intro m
    rfl
  · intro j hj
    constructor
    · intro hobj
      cases j <;>
        simp_all [classify_response_status, classifyCore, pyGetD, isObjJ]
    · intro kvs hkvs
      subst hkvs
      constructor
      · intro hres
        have hcc : classifyCore (JVal.obj kvs) = Except.error () := by
          generalize hR : (List.lookup kResult kvs).getD (JVal.obj []) = res
            at hres
          cases res <;> simp_all [classifyCore, pyGetD, isObjJ]
        simp [classify_response_status, hj, hcc]
      · intro rkvs hres hie
        have hcc : classifyCore (JVal.obj kvs) =
            Except.ok
              (if isBoolFalse ((List.lookup kIsError rkvs).getD JVal.null)
               then sSuccess else sUnknown) := by
          simp [classifyCore, pyGetD, hres, hie]
          split <;> rfl
        simp [classify_response_status, hj, hcc]


/-- Witness for claim C1 at a concrete input: an unparseable raw string
classifies as `unknown`. -/
theorem claim_C1_witness :
    classify_response_status pNone (RawResponse.str emptyStr) = sUnknown :=
  (claim_C1 pNone (RawResponse.str emptyStr)).2.1 emptyStr rfl rfl

/-- Counterexample to claim C2 as stated: with `isError` exactly `true`
and `content = [{"text": 5}]` — a sequence with no element whose `text`
value contains the marker substring — the claim requires `error`, but
the containment test on the number raises a `TypeError`, the fault is
caught, and the classifier returns `unknown`. -/
theorem claim_C2_cex :
    ([JVal.obj [(kText, JVal.num 5)]].any claimElemMatch = false) ∧
      classify_response_status pNone
          (RawResponse.json (JVal.obj
            [(kResult, JVal.obj [(kIsError, JVal.bool true),
              (kContent, JVal.arr [JVal.obj [(kText, JVal.num 5)]])])])) =
        sUnknown ∧
      sUnknown ≠ sError ∧ sUnknown ≠ sSuccess := by
  exact ⟨rfl, rfl, by decide, by decide⟩

/-- Claim C2 as amended: when `result.isError` is exactly `true`, the
verdict is that of the in-order scan of `content` — `success` when the
scan finds a mapping whose `text` value passes the containment test for
the marker before any element on which that test faults, `error` when
`content` is not a sequence or the scan completes without a match, and
`unknown` when the scan faults first (on a `text` value that is a
number, boolean or null). -/
theorem claim_C2 (p : String → Option JVal)
    (kvs rkvs : List (String × JVal))
    (hres : (List.lookup kResult kvs).getD (JVal.obj []) = JVal.obj rkvs)
    (hie : (List.lookup kIsError rkvs).getD JVal.null = JVal.bool true) :
    classify_response_status p (RawResponse.json (JVal.obj kvs)) =
      match (List.lookup kContent rkvs).getD (JVal.str emptyStr) with
      | JVal.arr items =>
        match anyExcept overrideItem items with
        | Except.ok true => sSuccess
        | Except.ok false => sError
        | Except.error _ => sUnknown
      | _ => sError := by
  have hcc : classifyCore (JVal.obj kvs) =
      match (List.lookup kContent rkvs).getD (JVal.str emptyStr) with
      | JVal.arr items =>
        (match anyExcept overrideItem items with
         | Except.ok true => Except.ok sSuccess
         | Except.ok false => Except.ok sError
         | Except.error e => Except.error e)
      | _ => Except.ok sError := by
    unfold classifyCore
    simp [pyGetD, hres, hie, isBoolTrue]
  have hout : classify_response_status p (RawResponse.json (JVal.obj kvs)) =
      match classifyCore (JVal.obj kvs) with
      | Except.ok s => s
      | Except.error _ => sUnknown := rfl
  rw [hout, hcc]
  cases hct : (List.lookup kContent rkvs).getD (JVal.str emptyStr) <;>
    simp [hct]
  rename_i items
  cases hae : anyExcept overrideItem items with
  | error e => simp
  | ok b => cases b <;> simp

/-- Witness for claim C2 at a concrete input: `isError` true with an
empty `content` sequence classifies as `error`. -/
theorem claim_C2_witness :
    classify_response_status pNone
        (RawResponse.json (JVal.obj [(kResult,
          JVal.obj [(kIsError, JVal.bool true),
            (kContent, JVal.arr [])])])) = sError :=
  Eq.trans
    (claim_C2 pNone
      [(kResult, JVal.obj [(kIsError, JVal.bool true),
        (kContent, JVal.arr [])])]
      [(kIsError, JVal.bool true), (kContent, JVal.arr [])] rfl rfl)
    rfl

/-- The SSE accumulation loop of `call_mcp`, expressed as the verbatim
concatenation of the per-line remainders of the matching lines. -/
theorem foldl_streamLineAccum (lines : List String) :
    ∀ acc, List.foldl streamLineAccum acc lines =
      acc ++ joinStrs (List.filterMap amendedLineRemainder lines) := by
  induction lines with
  | nil =>
    intro acc
    apply String.ext
    simp [joinStrs, emptyStr, String.data_append]
  | cons line rest ih =>
    intro acc
    by_cases h : pyStartsWith (pyStrip line) dataColon
    · simp only [List.foldl_cons, List.filterMap_cons, amendedLineRemainder,
        h, if_pos, streamLineAccum, ih, joinStrs]
      apply String.ext
      simp [String.data_append]
    · simp only [List.foldl_cons, List.filterMap_cons, amendedLineRemainder,
        h, if_neg, streamLineAccum, ih, joinStrs]
      simp [h]

/-- A stream line whose payload itself contains the substring `data:`. -/
def cexLine : String := "data: \"adata:b\""

/-- Counterexample to claim C3 as stated: on the single line
`data: "adata:b"` the code removes every occurrence of `data:` (via
`str.replace`), accumulating `"ab"`, while the claim's
strip-only-the-leading-prefix rule yields `"adata:b"`; the returned
transport-failure record's `raw` field carries the code's buffer, not
the claim's. -/
theorem claim_C3_cex :
    streamBuffer [cexLine] = bufAB ∧
      claimStreamBuffer [cexLine] = bufAdataB ∧
      bufAB ≠ bufAdataB ∧
      decodeStream pNone emptyStr [cexLine] =
        JVal.obj [(kError, JVal.str emptyStr), (kRaw, JVal.str bufAB)] := by
  exact ⟨rfl, rfl, by decide, rfl⟩

/-- Claim C3 as amended: the SSE decoder takes every line that after
trimming begins with `data:`, removes every occurrence of the substring
`data:` from the trimmed line (not only the leading prefix), trims, and
concatenates the remainders verbatim into one buffer, ignoring other
lines; the buffer is parsed as JSON and on failure the transport-failure
record's `raw` field equals that buffer. -/
theorem claim_C3 (p : String → Option JVal) (emsg : String)
    (lines : List String) :
    streamBuffer lines = joinStrs (List.filterMap amendedLineRemainder lines) ∧
      decodeStream p emsg lines = claimDecodeAmended p emsg lines := by
  have hbuf : streamBuffer lines =
      joinStrs (List.filterMap amendedLineRemainder lines) := by
    have h := foldl_streamLineAccum lines emptyStr
    rw [streamBuffer, h]
    apply String.ext
    simp [emptyStr, String.data_append]
  exact ⟨hbuf, by rw [decodeStream, claimDecodeAmended, hbuf]⟩

/-- Counterexample to claim C6 as stated: an entry with tool type `api`
and no excluded category qualifies for retention by the claim's rule,
but when its `inputSchema` is a truthy non-mapping the loader's
normalization raises, the whole load aborts, and the entry is not
retained (nothing is). -/
theorem claim_C6_cex :
    keepTool (JVal.obj
        [(kToolType, JVal.str sApi), (kInputSchema, JVal.num 1)]) = true ∧
      load_tools_from_json
          [JVal.obj [(kToolType, JVal.str sApi), (kInputSchema, JVal.num 1)]] =
        Except.error () :=
  ⟨rfl, rfl⟩

/-- Claim C6 as amended: whenever the loader completes without raising,
it retains exactly the entries whose `toolType` is case-insensitively
`api` and whose category is not excluded, each normalized; a qualifying
entry whose `inputSchema` is a truthy non-mapping (or any entry whose
truthy `toolType` is not a string) makes the loader raise and retain
nothing. -/
theorem claim_C6 (ts out : List JVal)
    (h : load_tools_from_json ts = Except.ok out) :
    List.mapM normalizeTool (List.filter keepTool ts) = Except.ok out := by
  induction ts generalizing out with
  | nil =>
    simp only [load_tools_from_json] at h
    cases h
    rfl
  | cons t rest ih =>
    unfold load_tools_from_json at h
    cases htt : toolTypeStr t with
    | error e =>
      simp only [htt] at h
      exact Except.noConfusion h
    | ok tt =>
      simp only [htt] at h
      by_cases happ : tt = sApi
      · rw [if_pos happ] at h
        cases hcat : pyGetD t kCategory JVal.null with
        | error e =>
          simp only [hcat] at h
          exact Except.noConfusion h
        | ok cat =>
          simp only [hcat] at h
          by_cases hexc : _is_excluded_category cat = true
          · rw [if_pos hexc] at h
            have hk : keepTool t = false := by
              simp [keepTool, htt, happ, hcat, hexc]
            simp only [List.filter_cons, hk, Bool.false_eq_true, if_false]
            exact ih out h
          · rw [if_neg hexc] at h
            have hk : keepTool t = true := by
              simp only [keepTool, htt, happ, hcat, if_pos]
              simpa using hexc
            cases hn : normalizeTool t with
            | error e =>
              simp only [hn] at h
              exact Except.noConfusion h
            | ok t2 =>
              simp only [hn] at h
              cases hrest : load_tools_from_json rest with
              | error e =>
                simp only [hrest] at h
                exact Except.noConfusion h
              | ok restOut =>
                simp only [hrest] at h
                cases h
                simp only [List.filter_cons, hk, if_true]
                rw [List.mapM_cons, hn, ih restOut hrest]
                rfl
      · rw [if_neg happ] at h
        have hk : keepTool t = false := by simp [keepTool, htt, happ]
        simp only [List.filter_cons, hk, Bool.false_eq_true, if_false]
        exact ih out h

/-- A minimal retained catalog entry. -/
def toolW : JVal := JVal.obj [(kToolType, JVal.str sApi)]

/-- Witness for claim C6 on a concrete one-entry catalog. -/
theorem claim_C6_witness :
    List.mapM normalizeTool (List.filter keepTool [toolW]) =
      Except.ok [JVal.obj [(kToolType, JVal.str sApi), (kProps, JVal.obj []),
        (kExample, JVal.obj [])]] :=
  claim_C6 [toolW]
    [JVal.obj [(kToolType, JVal.str sApi), (kProps, JVal.obj []),
      (kExample, JVal.obj [])]] rfl

/-- With a string tool name, `generate_sample_arguments` never raises:
every path (truthy cache hit, model success, caught model failure)
returns. -/
theorem generate_ok (e : Env) (c : Cache) (s : String) (props : JVal) :
    ∃ pr, generate_sample_arguments e c (JVal.str s) props = Except.ok pr := by
  have hred : generate_sample_arguments e c (JVal.str s) props =
      if pyTruthy ((load_cached_params c s).getD JVal.null) then
        Except.ok ((load_cached_params c s).getD JVal.null, c)
      else
        match e.gpt s props with
        | some parsed => Except.ok (parsed, save_cached_params c s parsed)
        | none => Except.ok (JVal.obj [], c) := rfl
  rw [hred]
  by_cases h : pyTruthy ((load_cached_params c s).getD JVal.null)
  · exact ⟨_, by rw [if_pos h]⟩
  · rw [if_neg h]
    cases e.gpt s props <;> exact ⟨_, rfl⟩

/-- The full result record carries the tool's name in its `name`
field. -/
theorem jGetD_fullRecord (e : Env) (n d ty pr inp : JVal) :
    jGetD (mkFull e n d ty pr inp) kName JVal.null = n := by
  simp [mkFull, fullRecord, jGetD, List.lookup]

/-- Under the step-safety condition the per-tool loop body never raises
and the yielded record carries the entry's `name` value. -/
theorem runStep_ok (e : Env) (c : Cache) (t : JVal) (hs : stepSafe t = true) :
    ∃ r c2, runStep e c t = Except.ok (r, c2) ∧
      jGetD r kName JVal.null = jGetD t kName JVal.null := by
  cases t with
  | obj kvs =>
    simp only [runStep, runStepBody]
    by_cases h1 : isObjJ ((List.lookup kProps kvs).getD (JVal.obj []))
    · rw [if_neg (by simp [h1])]
      by_cases h2 : nonEmptyObj ((List.lookup kExample kvs).getD (JVal.obj []))
      · rw [if_pos h2]
        exact ⟨_, _, rfl, jGetD_fullRecord e _ _ _ _ _⟩
      · rw [if_neg h2]
        have hname : isStrJ ((List.lookup kName kvs).getD JVal.null) = true := by
          simp only [stepSafe, h1, h2] at hs
          simpa using hs
        cases hnm : (List.lookup kName kvs).getD JVal.null with
        | str s =>
          obtain ⟨⟨args, c2⟩, hg⟩ := generate_ok e c s
            ((List.lookup kProps kvs).getD (JVal.obj []))
          simp only [hg]
          by_cases h3 : pyTruthy args
          · rw [if_neg (by simp [h3])]
            refine ⟨_, _, rfl, ?_⟩
            rw [jGetD_fullRecord]
            simp [jGetD, hnm]
          · rw [if_pos (by simp [h3])]
            refine ⟨_, _, rfl, ?_⟩
            simp [jGetD, List.lookup, hnm]
        | null => rw [hnm] at hname; simp [isStrJ] at hname
        | bool b => rw [hnm] at hname; simp [isStrJ] at hname
        | num n => rw [hnm] at hname; simp [isStrJ] at hname
        | arr xs => rw [hnm] at hname; simp [isStrJ] at hname
        | obj kvs2 => rw [hnm] at hname; simp [isStrJ] at hname
    · rw [if_pos (by simp [h1])]
      refine ⟨_, _, rfl, ?_⟩
      simp [jGetD, List.lookup]
  | null => simp [stepSafe] at hs
  | bool b => simp [stepSafe] at hs
  | num n => simp [stepSafe] at hs
  | str s => simp [stepSafe] at hs
  | arr xs => simp [stepSafe] at hs

/-- Under step-safety for every entry, the orchestrator finishes without
raising, yields one record per entry, and the i-th record carries the
i-th entry's name. -/
theorem runAllP_safe (e : Env) (ts : List JVal) : ∀ (c : Cache),
    (∀ t ∈ ts, stepSafe t = true) →
    (runAllP e c ts).2 = false ∧
      (runAllP e c ts).1.length = ts.length ∧
      ∀ i (hi : i < ts.length) (ho : i < (runAllP e c ts).1.length),
        jGetD ((runAllP e c ts).1.get ⟨i, ho⟩) kName JVal.null =
          jGetD (ts.get ⟨i, hi⟩) kName JVal.null := by
  induction ts with
  | nil =>
    intro c h
    exact ⟨rfl, rfl, fun i hi => absurd hi (by simp)⟩
  | cons t rest ih =>
    intro c h
    obtain ⟨r, c2, hstep, hname⟩ := runStep_ok e c t (h t (by simp))
    have hrec := ih c2 (fun x hx => h x (by simp [hx]))
    have hcons : runAllP e c (t :: rest) =
        (r :: (runAllP e c2 rest).1, (runAllP e c2 rest).2) := by
      cases hR : runAllP e c2 rest with
      | mk rs ab => simp only [runAllP, hstep, hR]
    rw [hcons]
    refine ⟨hrec.1, by simp [hrec.2.1], ?_⟩
    intro i hi ho
    cases i with
    | zero => simpa using hname
    | succ n =>
      simp only [List.get_cons_succ, List.get]
      exact hrec.2.2 n (by simpa using hi) (by simpa using ho)

/-- A concrete tool name for witnesses. -/
def tName : String := "t"

/-- Claim C5 as amended: for a filtered catalog all of whose entries
satisfy the step-safety condition (a string `name` whenever the
argument-synthesis step would be reached), the orchestrator yields
exactly one record per entry, in catalog order (the i-th record carries
the i-th entry's name), and does not abort. -/
theorem claim_C5 (e : Env) (c : Cache) (catalog tools : List JVal)
    (_hl : load_tools_from_json catalog = Except.ok tools)
    (hs : ∀ t ∈ tools, stepSafe t = true) :
    (runAllP e c tools).2 = false ∧
      (runAllP e c tools).1.length = tools.length ∧
      ∀ i (hi : i < tools.length) (ho : i < (runAllP e c tools).1.length),
        jGetD ((runAllP e c tools).1.get ⟨i, ho⟩) kName JVal.null =
          jGetD (tools.get ⟨i, hi⟩) kName JVal.null :=
  runAllP_safe e tools c hs

/-- Counterexample to claim C5 as stated: the loader accepts a catalog
whose single `api` entry has no `name`; on the resulting filtered
catalog the argument-synthesis step raises (`None.replace` has no
meaning), the generator aborts, and the run yields zero records for one
entry instead of exactly one each. -/
theorem claim_C5_cex :
    load_tools_from_json [JVal.obj [(kToolType, JVal.str sApi)]] =
        Except.ok [JVal.obj [(kToolType, JVal.str sApi), (kProps, JVal.obj []),
          (kExample, JVal.obj [])]] ∧
      runAllP envNone cacheEmpty
          [JVal.obj [(kToolType, JVal.str sApi), (kProps, JVal.obj []),
            (kExample, JVal.obj [])]] = ([], true) :=
  ⟨rfl, rfl⟩

/-- A one-entry catalog whose tool has a string name. -/
def catalogW5 : List JVal :=
  [JVal.obj [(kToolType, JVal.str sApi), (kName, JVal.str tName)]]

/-- The loader's output on `catalogW5`. -/
def toolsW5 : List JVal :=
  [JVal.obj [(kToolType, JVal.str sApi), (kName, JVal.str tName),
    (kProps, JVal.obj []), (kExample, JVal.obj [])]]

/-- Witness for claim C5 on a concrete catalog: one entry in, one
record out, no abort. -/
theorem claim_C5_witness :
    (runAllP envNone cacheEmpty toolsW5).2 = false ∧
      (runAllP envNone cacheEmpty toolsW5).1.length = toolsW5.length :=
  have h := claim_C5 envNone cacheEmpty catalogW5 toolsW5 rfl
    (by intro t ht; simp only [toolsW5, List.mem_singleton] at ht; subst ht; rfl)
  ⟨h.1, h.2.1⟩

/-- Counterexample to claim C7 as stated: for an entry whose parameter
schema is not a mapping, the yielded early-exit record's error message
is `Invalid parameter properties in JSON`, not the claimed
`Invalid parameter properties`. -/
theorem claim_C7_cex :
    runStep envNone cacheEmpty
        (JVal.obj [(kName, JVal.str tName), (kProps, JVal.num 1)]) =
      Except.ok (JVal.obj [(kName, JVal.str tName),
        (kError, JVal.str msgInvalidProps)], cacheEmpty) ∧
      msgInvalidProps ≠ "Invalid parameter properties" :=
  ⟨rfl, by decide⟩

/-- Claim C7 as amended: an entry whose parameter schema is not a
well-formed mapping yields `{name, error: "Invalid parameter properties
in JSON"}` and the run continues with the next tool; an entry with an
empty (or non-mapping) example, a string name, and a falsy synthesized
argument set yields `{name, error: "Failed to generate sample input"}`
and continues; neither case aborts the run. -/
theorem claim_C7 (e : Env) (c : Cache) (kvs : List (String × JVal))
    (ts : List JVal) :
    (isObjJ ((List.lookup kProps kvs).getD (JVal.obj [])) = false →
      runAllP e c (JVal.obj kvs :: ts) =
        (JVal.obj [(kName, (List.lookup kName kvs).getD JVal.null),
          (kError, JVal.str msgInvalidProps)] :: (runAllP e c ts).1,
          (runAllP e c ts).2)) ∧
    ∀ s args c2,
      isObjJ ((List.lookup kProps kvs).getD (JVal.obj [])) = true →
      nonEmptyObj ((List.lookup kExample kvs).getD (JVal.obj [])) = false →
      (List.lookup kName kvs).getD JVal.null = JVal.str s →
      generate_sample_arguments e c (JVal.str s)
          ((List.lookup kProps kvs).getD (JVal.obj [])) =
        Except.ok (args, c2) →
      pyTruthy args = false →
      runAllP e c (JVal.obj kvs :: ts) =
        (JVal.obj [(kName, JVal.str s), (kError, JVal.str msgFailedSample)]
          :: (runAllP e c2 ts).1, (runAllP e c2 ts).2) := by
  constructor
  · intro h1
    have hstep : runStep e c (JVal.obj kvs) =
        Except.ok (JVal.obj [(kName, (List.lookup kName kvs).getD JVal.null),
          (kError, JVal.str msgInvalidProps)], c) := by
      simp only [runStep, runStepBody, h1]
      rw [if_pos (by simp [h1])]
    cases hR : runAllP e c ts with
    | mk rs ab => simp only [runAllP, hstep, hR]
  · intro s args c2 h1 h2 hnm hg h3
    have hstep : runStep e c (JVal.obj kvs) =
        Except.ok (JVal.obj [(kName, JVal.str s),
          (kError, JVal.str msgFailedSample)], c2) := by
      simp only [runStep, runStepBody, hnm]
      rw [if_neg (by simp [h1]), if_neg (by simp [h2])]
      simp only [hg]
      rw [if_pos (by simp [h3])]
    cases hR : runAllP e c2 ts with
    | mk rs ab => simp only [runAllP, hstep, hR]

/-- Witness for claim C7 on a concrete entry with a non-mapping
parameter schema. -/
theorem claim_C7_witness :
    runAllP envNone cacheEmpty
        [JVal.obj [(kName, JVal.str tName), (kProps, JVal.num 1)]] =
      ([JVal.obj [(kName, JVal.str tName),
        (kError, JVal.str msgInvalidProps)]], false) :=
  (claim_C7 envNone cacheEmpty
    [(kName, JVal.str tName), (kProps, JVal.num 1)] []).1 rfl

/-- The HTTP body text of the concrete claim-C8 scenario. -/
def bodyOk : String := "body"

/-- A well-formed success envelope. -/
def respOk : JVal := JVal.obj [(kResult, JVal.obj [(kIsError, JVal.bool false)])]

/-- A non-empty example argument set. -/
def ex8 : JVal := JVal.obj [(kText, JVal.str tName)]

/-- An environment whose transport returns a plain-JSON success
envelope for every call. -/
def env8 : Env :=
  { parse := fun s => if s == bodyOk then some respOk else none,
    emsgStream := emptyStr, emsgJson := emptyStr,
    gpt := fun _ _ => none,
    http := fun _ _ => HttpResult.ok ctJson [] bodyOk }

/-- A catalog with one retained entry carrying an example. -/
def catalog8 : List JVal :=
  [JVal.obj [(kToolType, JVal.str sApi), (kName, JVal.str tName),
    (kExampleInput, ex8)]]

/-- The loader's output on `catalog8`. -/
def tools8 : List JVal :=
  [JVal.obj [(kToolType, JVal.str sApi), (kName, JVal.str tName),
    (kExampleInput, ex8), (kProps, JVal.obj []), (kExample, ex8)]]

/-- The single record the orchestrator yields on `tools8` under
`env8`: a `success` record whose `output` is a JSON mapping. -/
def rec8 : JVal :=
  JVal.obj [(kName, JVal.str tName), (kDescription, JVal.str emptyStr),
    (kType, JVal.str sApi), (kParameters, JVal.obj []), (kInput, ex8),
    (kOutput, respOk), (kStatus, JVal.str sSuccess)]

/-- Claim C8 is right about the intent but the code aborts: on a normal
run (one tool, plain-JSON success envelope) the orchestrator yields a
`success` record whose `output` is a mapping, and `main`'s
`result.get("output")[:200] + "..."` raises a `TypeError` on it, so the
process aborts with a traceback and a nonzero exit instead of printing
a truncated output and exiting 0; an early-exit record (no `status`
key) likewise makes `result['status']` raise a `KeyError`. -/
theorem claim_C8 :
    load_tools_from_json catalog8 = Except.ok tools8 ∧
      runAllP env8 cacheEmpty tools8 = ([rec8], false) ∧
      jGetD rec8 kStatus JVal.null = JVal.str sSuccess ∧
      mainStep rec8 = Except.error () ∧
      mainRun [rec8] = Except.error () ∧
      mainStep (JVal.obj [(kName, JVal.str tName),
        (kError, JVal.str msgInvalidProps)]) = Except.error () :=
  ⟨rfl, rfl, rfl, rfl, rfl, rfl⟩
